import Mathlib

/-!
Verification development for the Image-Processor editing engine.

Shallow embedding of the core modules:
  src/core/adjustments.py        (AdjustmentState, clamping setters, pipeline)
  src/core/adjustment_controller.py
  src/core/image_store.py        (undo/redo history)
  src/core/crop_service.py       (compute_crop_box)
  src/core/image_session.py      (ratio derivation, variant specs)
  src/core/image_processing.py   (resize_with_quality)

Python floats are modelled as rationals, Python ints as integers.
Python round (round-half-to-even) is modelled by pyRound below.
Python floor division and modulo are modelled by Int.fdiv / Int.fmod.
-/

namespace ImageProcessor

/-! Executable rational arithmetic.  The Batteries implementations of
Rat.add, Rat.sub, Rat.mul and Rat.inv are marked irreducible, which
blocks evaluation of concrete witnesses by the decide tactic; the
wrappers below compute through Rat.divInt instead and are proved equal to
the standard operators, so symbolic proofs can rewrite to those. -/

/-- Executable rational addition. -/
def ratAdd (a b : ℚ) : ℚ :=
  Rat.divInt (a.num * b.den + b.num * a.den) ((a.den : ℤ) * b.den)

/-- Executable rational subtraction. -/
def ratSub (a b : ℚ) : ℚ :=
  Rat.divInt (a.num * b.den - b.num * a.den) ((a.den : ℤ) * b.den)

/-- Executable rational multiplication. -/
def ratMul (a b : ℚ) : ℚ :=
  Rat.divInt (a.num * b.num) ((a.den : ℤ) * b.den)

/-- Executable rational division (zero divisor yields zero, matching
division on ℚ; every division site in the embedded code is guarded the
way the Python code guards it). -/
def ratDiv (a b : ℚ) : ℚ :=
  Rat.divInt (a.num * b.den) (b.num * a.den)

theorem ratAdd_eq (a b : ℚ) : ratAdd a b = a + b := by
  have ha : ((a.den : ℚ)) ≠ 0 := Nat.cast_ne_zero.mpr a.den_ne_zero
  have hb : ((b.den : ℚ)) ≠ 0 := Nat.cast_ne_zero.mpr b.den_ne_zero
  have hA : (a.num : ℚ) = a * a.den := (div_eq_iff ha).mp (Rat.num_div_den a)
  have hB : (b.num : ℚ) = b * b.den := (div_eq_iff hb).mp (Rat.num_div_den b)
  rw [ratAdd, Rat.divInt_eq_div]
  push_cast
  rw [div_eq_iff (mul_ne_zero ha hb), hA, hB]
  ring

theorem ratSub_eq (a b : ℚ) : ratSub a b = a - b := by
  have ha : ((a.den : ℚ)) ≠ 0 := Nat.cast_ne_zero.mpr a.den_ne_zero
  have hb : ((b.den : ℚ)) ≠ 0 := Nat.cast_ne_zero.mpr b.den_ne_zero
  have hA : (a.num : ℚ) = a * a.den := (div_eq_iff ha).mp (Rat.num_div_den a)
  have hB : (b.num : ℚ) = b * b.den := (div_eq_iff hb).mp (Rat.num_div_den b)
  rw [ratSub, Rat.divInt_eq_div]
  push_cast
  rw [div_eq_iff (mul_ne_zero ha hb), hA, hB]
  ring

theorem ratMul_eq (a b : ℚ) : ratMul a b = a * b := by
  have ha : ((a.den : ℚ)) ≠ 0 := Nat.cast_ne_zero.mpr a.den_ne_zero
  have hb : ((b.den : ℚ)) ≠ 0 := Nat.cast_ne_zero.mpr b.den_ne_zero
  have hA : (a.num : ℚ) = a * a.den := (div_eq_iff ha).mp (Rat.num_div_den a)
  have hB : (b.num : ℚ) = b * b.den := (div_eq_iff hb).mp (Rat.num_div_den b)
  rw [ratMul, Rat.divInt_eq_div]
  push_cast
  rw [div_eq_iff (mul_ne_zero ha hb), hA, hB]
  ring

theorem ratDiv_eq (a b : ℚ) : ratDiv a b = a / b := by
  rcases eq_or_ne b 0 with hb0 | hb0
  · subst hb0
    simp [ratDiv, Rat.divInt_eq_div]
  · have ha : ((a.den : ℚ)) ≠ 0 := Nat.cast_ne_zero.mpr a.den_ne_zero
    have hb : ((b.den : ℚ)) ≠ 0 := Nat.cast_ne_zero.mpr b.den_ne_zero
    have hbn : ((b.num : ℚ)) ≠ 0 := by
      exact_mod_cast Rat.num_ne_zero.mpr hb0
    have hA : (a.num : ℚ) = a * a.den := (div_eq_iff ha).mp (Rat.num_div_den a)
    have hB : (b.num : ℚ) = b * b.den := (div_eq_iff hb).mp (Rat.num_div_den b)
    rw [ratDiv, Rat.divInt_eq_div]
    push_cast
    rw [div_eq_div_iff (mul_ne_zero hbn ha) hb0, hA, hB]
    ring

instance {ε α : Type} [DecidableEq ε] [DecidableEq α] :
    DecidableEq (Except ε α) := fun x y =>
  match x, y with
  | .ok a, .ok b =>
    if h : a = b then .isTrue (by rw [h]) else .isFalse (by simp [h])
  | .error a, .error b =>
    if h : a = b then .isTrue (by rw [h]) else .isFalse (by simp [h])
  | .ok _, .error _ => .isFalse (by simp)
  | .error _, .ok _ => .isFalse (by simp)

/-- Floor of a rational, computed from numerator and denominator. -/
def ratFloor (q : ℚ) : ℤ :=
  q.num.fdiv q.den

/-- Python round(): round half to even (banker rounding), as used by
the CPython round builtin on exact values. -/
def pyRound (q : ℚ) : ℤ :=
  let f := ratFloor q
  let r := ratSub q (f : ℚ)
  if r < mkRat 1 2 then f
  else if mkRat 1 2 < r then f + 1
  else if f % 2 = 0 then f else f + 1

/-! ## src/core/adjustments.py : AdjustmentState and its setters -/

/-- AdjustmentState (src/core/adjustments.py, lines 9-18).  Factor fields
are Python floats (rationals here), the temperature and balance fields are
Python ints.  The dataclass constructor performs no validation. -/
structure AdjustmentState where
  brightness : ℚ := 1
  contrast : ℚ := 1
  saturation : ℚ := 1
  sharpness : ℚ := 1
  temperature : ℤ := 0
  red_balance : ℤ := 0
  green_balance : ℤ := 0
  blue_balance : ℤ := 0
deriving Repr, DecidableEq

/-- The function _clamp_factor (adjustments.py line 21): clamp into [0.2, 3.0]. -/
def _clamp_factor (value : ℚ) : ℚ :=
  max (mkRat 1 5) (min 3 value)

/-- int(max(-100, min(100, value))) used by the integer setters. -/
def _clamp_hundred (value : ℤ) : ℤ :=
  max (-100) (min 100 value)

/-- set_brightness (adjustments.py line 25). -/
def set_brightness (st : AdjustmentState) (value : ℚ) : AdjustmentState :=
  { st with brightness := _clamp_factor value }

/-- set_contrast (adjustments.py line 29). -/
def set_contrast (st : AdjustmentState) (value : ℚ) : AdjustmentState :=
  { st with contrast := _clamp_factor value }

/-- set_saturation (adjustments.py line 33). -/
def set_saturation (st : AdjustmentState) (value : ℚ) : AdjustmentState :=
  { st with saturation := _clamp_factor value }

/-- set_sharpness (adjustments.py line 37). -/
def set_sharpness (st : AdjustmentState) (value : ℚ) : AdjustmentState :=
  { st with sharpness := _clamp_factor value }

/-- set_temperature (adjustments.py line 41). -/
def set_temperature (st : AdjustmentState) (value : ℤ) : AdjustmentState :=
  { st with temperature := _clamp_hundred value }

/-- set_red_balance (adjustments.py line 45). -/
def set_red_balance (st : AdjustmentState) (value : ℤ) : AdjustmentState :=
  { st with red_balance := _clamp_hundred value }

/-- set_green_balance (adjustments.py line 49). -/
def set_green_balance (st : AdjustmentState) (value : ℤ) : AdjustmentState :=
  { st with green_balance := _clamp_hundred value }

/-- set_blue_balance (adjustments.py line 53). -/
def set_blue_balance (st : AdjustmentState) (value : ℤ) : AdjustmentState :=
  { st with blue_balance := _clamp_hundred value }

/-- The documented clamp-range invariant of AdjustmentState: the four
factor fields lie in [0.2, 3.0] and the four integer fields in
[-100, 100]. -/
def StateInRange (st : AdjustmentState) : Prop :=
  mkRat 1 5 ≤ st.brightness ∧ st.brightness ≤ 3 ∧
  mkRat 1 5 ≤ st.contrast ∧ st.contrast ≤ 3 ∧
  mkRat 1 5 ≤ st.saturation ∧ st.saturation ≤ 3 ∧
  mkRat 1 5 ≤ st.sharpness ∧ st.sharpness ≤ 3 ∧
  -100 ≤ st.temperature ∧ st.temperature ≤ 100 ∧
  -100 ≤ st.red_balance ∧ st.red_balance ≤ 100 ∧
  -100 ≤ st.green_balance ∧ st.green_balance ≤ 100 ∧
  -100 ≤ st.blue_balance ∧ st.blue_balance ≤ 100

instance (st : AdjustmentState) : Decidable (StateInRange st) := by
  unfold StateInRange; infer_instance

/-! ## src/core/adjustment_controller.py -/

/-- AdjustmentController state: the single mutable AdjustmentState plus
whether a listener is registered (the _listener slot holds a callback or
None).  Mutators return the updated controller together with the list of
states the listener was invoked with (the _emit calls). -/
structure Controller where
  state : AdjustmentState := {}
  hasListener : Bool := true
deriving Repr, DecidableEq

/-- The method _emit (adjustment_controller.py line 74): invokes the listener with the
current state when one is registered. -/
def emitOf (c : Controller) : List AdjustmentState :=
  if c.hasListener then [c.state] else []

/-- AdjustmentController.reset (line 37): replace with defaults, emit. -/
def ctrl_reset (c : Controller) : Controller × List AdjustmentState :=
  let c := { c with state := {} }
  (c, emitOf c)

/-- AdjustmentController.set_state (line 41): replace wholesale, emit.
No clamping is performed. -/
def ctrl_set_state (c : Controller) (st : AdjustmentState) :
    Controller × List AdjustmentState :=
  let c := { c with state := st }
  (c, emitOf c)

/-- AdjustmentController.update_factor (lines 45-56).  The first component
is the raised error (none on success); on the error path the method raises
before touching the state or emitting, so the controller is returned
unchanged with no emissions. -/
def update_factor (c : Controller) (field : String) (value : ℚ) :
    Option String × Controller × List AdjustmentState :=
  if field = "brightness" then
    let c := { c with state := set_brightness c.state value }
    (none, c, emitOf c)
  else if field = "contrast" then
    let c := { c with state := set_contrast c.state value }
    (none, c, emitOf c)
  else if field = "saturation" then
    let c := { c with state := set_saturation c.state value }
    (none, c, emitOf c)
  else if field = "sharpness" then
    let c := { c with state := set_sharpness c.state value }
    (none, c, emitOf c)
  else
    (some ("Unbekanntes Feld: " ++ field), c, [])

/-- AdjustmentController.update_temperature (line 58). -/
def update_temperature (c : Controller) (value : ℤ) :
    Controller × List AdjustmentState :=
  let c := { c with state := set_temperature c.state value }
  (c, emitOf c)

/-- AdjustmentController.update_red_balance (line 62). -/
def update_red_balance (c : Controller) (value : ℤ) :
    Controller × List AdjustmentState :=
  let c := { c with state := set_red_balance c.state value }
  (c, emitOf c)

/-- AdjustmentController.update_green_balance (line 66). -/
def update_green_balance (c : Controller) (value : ℤ) :
    Controller × List AdjustmentState :=
  let c := { c with state := set_green_balance c.state value }
  (c, emitOf c)

/-- AdjustmentController.update_blue_balance (line 70). -/
def update_blue_balance (c : Controller) (value : ℤ) :
    Controller × List AdjustmentState :=
  let c := { c with state := set_blue_balance c.state value }
  (c, emitOf c)

/-! ## src/core/image_store.py : undo/redo history -/

/-- ImageStore (image_store.py lines 17-27), generic over the snapshot
payload type.  Python list append/pop at the end is modelled with cons at
the head, so the head of each list is the top of the stack. -/
structure ImageStore (α : Type) where
  original : Option α := none
  current : Option α := none
  undo_stack : List α := []
  redo_stack : List α := []
deriving Repr, DecidableEq

/-- ImageStore.push_state (lines 35-39): if a current snapshot exists it
moves to the top of the undo stack; the pushed snapshot becomes current;
the redo stack is cleared entirely. -/
def push_state {α : Type} (s : ImageStore α) (st : α) : ImageStore α :=
  let undo := match s.current with
    | some c => c :: s.undo_stack
    | none => s.undo_stack
  { s with undo_stack := undo, current := some st, redo_stack := [] }

/-- ImageStore.undo (lines 41-47): no-op returning none when the undo
stack is empty; otherwise the current snapshot (if any) moves onto the
redo stack and the undo top becomes current and is returned. -/
def store_undo {α : Type} (s : ImageStore α) : ImageStore α × Option α :=
  match s.undo_stack with
  | [] => (s, none)
  | top :: rest =>
    let redo := match s.current with
      | some c => c :: s.redo_stack
      | none => s.redo_stack
    ({ s with undo_stack := rest, redo_stack := redo, current := some top },
     some top)

/-- ImageStore.redo (lines 49-55): the mirror of undo. -/
def store_redo {α : Type} (s : ImageStore α) : ImageStore α × Option α :=
  match s.redo_stack with
  | [] => (s, none)
  | top :: rest =>
    let undo := match s.current with
      | some c => c :: s.undo_stack
      | none => s.undo_stack
    ({ s with redo_stack := rest, undo_stack := undo, current := some top },
     some top)

/-- ImageStore.has_unsaved_changes (line 68): bool(self.undo_stack). -/
def has_unsaved_changes {α : Type} (s : ImageStore α) : Bool :=
  !s.undo_stack.isEmpty

/-! ## src/core/crop_service.py : compute_crop_box -/

/-- A QRectF: origin and extent as Python floats (rationals here). -/
structure Rect where
  x : ℚ
  y : ℚ
  w : ℚ
  h : ℚ
deriving Repr, DecidableEq

/-- Normalised horizontal span (left, right) of a QRectF, as computed by
QRectF intersection: a negative width swaps the edges. -/
def spanX (rc : Rect) : ℚ × ℚ :=
  if rc.w < 0 then (ratAdd rc.x rc.w, rc.x) else (rc.x, ratAdd rc.x rc.w)

/-- Normalised vertical span (top, bottom) of a QRectF. -/
def spanY (rc : Rect) : ℚ × ℚ :=
  if rc.h < 0 then (ratAdd rc.y rc.h, rc.y) else (rc.y, ratAdd rc.y rc.h)

/-- compute_crop_box (crop_service.py lines 19-48).  pw and ph are the
pixmap pixel dimensions, pixNull models pixmap.isNull().  Errors carry the
message of the raised CropServiceError.  The QRectF intersection is the
span overlap; an empty or degenerate overlap fails the
isValid/width/height check on line 33. -/
def compute_crop_box (selection_rect image_rect : Rect) (pw ph : ℤ)
    (pixNull : Bool) (current_scale : ℚ) :
    Except String (ℤ × ℤ × ℤ × ℤ) :=
  if image_rect.w ≤ 0 ∨ image_rect.h ≤ 0 then
    .error "Ungültige Bildprojektion."
  else if pixNull then
    .error "Kein Bild geladen."
  else if current_scale ≤ 0 then
    .error "Ungültiger Zoomfaktor."
  else
    let sx := spanX selection_rect
    let ix := spanX image_rect
    let sy := spanY selection_rect
    let iy := spanY image_rect
    let il := max sx.1 ix.1
    let ir := min sx.2 ix.2
    let it := max sy.1 iy.1
    let ib := min sy.2 iy.2
    if ratSub ir il ≤ 0 ∨ ratSub ib it ≤ 0 then
      .error "Auswahl enthält keinen sichtbaren Bildanteil."
    else
      let left := max 0 (pyRound (ratDiv (ratSub il image_rect.x) current_scale))
      let top := max 0 (pyRound (ratDiv (ratSub it image_rect.y) current_scale))
      let width := max 1 (pyRound (ratDiv (ratSub ir il) current_scale))
      let height := max 1 (pyRound (ratDiv (ratSub ib it) current_scale))
      let width := if pw < left + width then max 1 (pw - left) else width
      let height := if ph < top + height then max 1 (ph - top) else height
      .ok (left, top, width, height)

/-! ## src/core/settings.py and src/core/image_session.py -/

/-- A width/height entry of a VariantRule: Python ``str | int``. -/
inductive RV where
  | lit : ℤ → RV
  | sym : String → RV
deriving Repr, DecidableEq

/-- VariantRule (settings.py lines 20-24).  The field pfx models the
Python field named prefix. -/
structure VariantRule where
  pfx : String
  width : RV
  height : RV
deriving Repr, DecidableEq

/-- The variant_rules table: a string-keyed mapping, modelled as an
association list (Python dict with unique keys). -/
abbrev RuleTable := List (String × List VariantRule)

/-- dict.get(label): first entry with the given key. -/
def getRules (vr : RuleTable) (label : String) : Option (List VariantRule) :=
  (vr.find? (fun p => p.1 = label)).map Prod.snd

/-- ImageSession._variant_rules (image_session.py lines 86-92).  Python
truthiness: a missing key and an empty list are both falsy. -/
def variant_rules_lookup (vr : RuleTable) (label : String) :
    Except String (List VariantRule) :=
  let rules := match getRules vr label with
    | some l => l
    | none => []
  let rules := if rules = [] then
      match getRules vr "default" with
      | some l => l
      | none => []
    else rules
  if rules = [] then .error "Keine Exportregeln konfiguriert." else .ok rules

/-- str.lower(), on the character list of a string (ASCII lowering by
Char.toLower, which is what the rule keywords need). -/
def pyLower (s : String) : String :=
  ⟨s.data.map Char.toLower⟩

/-- str.replace for a single-character pattern, on character lists (every
replace call in build_variant_specs uses a one-character pattern). -/
def replaceChars (pat : Char) (rep : List Char) : List Char → List Char
  | [] => []
  | c :: rest =>
    if c = pat then rep ++ replaceChars pat rep rest
    else c :: replaceChars pat rep rest

/-- str.replace lifted back to strings. -/
def pyReplace (s : String) (pat : Char) (rep : String) : String :=
  ⟨replaceChars pat rep.data s.data⟩

/-- RatioSelection (image_session.py lines 18-22). -/
structure RatioSelection where
  label : Option String := none
  value : Option ℚ := none
  custom_tuple : Option (ℚ × ℚ) := none
deriving Repr, DecidableEq

/-- One step bundle of the CPython Fraction.limit_denominator loop:
(p0, q0, p1, q1, n, d). -/
def limitDenLoop (maxd : ℤ) :
    ℕ → ℤ → ℤ → ℤ → ℤ → ℤ → ℤ → ℤ × ℤ × ℤ × ℤ × ℤ × ℤ
  | 0, p0, q0, p1, q1, n, d => (p0, q0, p1, q1, n, d)
  | fuel + 1, p0, q0, p1, q1, n, d =>
    if d = 0 then (p0, q0, p1, q1, n, d)
    else
      let a := n.fdiv d
      let q2 := q0 + a * q1
      if maxd < q2 then (p0, q0, p1, q1, n, d)
      else limitDenLoop maxd fuel p1 q1 (p0 + a * p1) q2 d (n - a * d)

/-- Fraction.limit_denominator (CPython fractions.py), on exact rationals.
When the denominator already fits, the fraction is returned unchanged;
otherwise the continued-fraction bound search runs (the d = 0 guard is
unreachable for denominators above the bound but keeps the fuel total). -/
def limit_denominator (q : ℚ) (maxd : ℤ) : ℚ :=
  if (q.den : ℤ) ≤ maxd then q
  else
    let r := limitDenLoop maxd (q.den + 1) 0 1 1 0 q.num (q.den : ℤ)
    let p0 := r.1
    let q0 := r.2.1
    let p1 := r.2.2.1
    let q1 := r.2.2.2.1
    let d := r.2.2.2.2.2
    let k := (maxd - q0).fdiv q1
    if 2 * d * (q0 + k * q1) ≤ (q.den : ℤ) then Rat.divInt p1 q1
    else Rat.divInt (p0 + k * p1) (q0 + k * q1)

/-- ImageSession._derive_ratio (image_session.py lines 94-99): label from
Fraction(width, height).limit_denominator(100), value width / height. -/
def derive_ratio_pair (imgW imgH : ℤ) : String × ℚ :=
  if imgH = 0 then ("default", 1)
  else
    let frac := limit_denominator (Rat.divInt imgW imgH) 100
    (toString frac.num ++ ":" ++ toString frac.den, ratDiv (imgW : ℚ) (imgH : ℚ))

/-- The inner resolve closure of ImageSession._resolve_dimensions
(image_session.py lines 104-115).  The fallthrough int(value) parse of a
non-keyword string is modelled with String.toInt?; none models the raised
ValueError. -/
def resolveEntry (value : RV) (original : ℤ) (is_width : Bool)
    (other : Option ℤ) (ratio_value : ℚ) : Option ℤ :=
  match value with
  | .lit n => some n
  | .sym s =>
    let lowered := pyLower s
    if lowered = "original" then some original
    else if lowered = "auto" then
      match other with
      | none => some original
      | some o =>
        if ratio_value = 0 then some original
        else if is_width then some (max 1 (pyRound (ratMul (o : ℚ) ratio_value)))
        else some (max 1 (pyRound (ratDiv (o : ℚ) ratio_value)))
    else s.toInt?

/-- Whether a rule entry is the string auto (case-insensitive), as tested
on image_session.py lines 117-118. -/
def isAuto (value : RV) : Bool :=
  match value with
  | .lit _ => false
  | .sym s => pyLower s = "auto"

/-- ImageSession._resolve_dimensions (image_session.py lines 101-130).
none models a raised exception: a failing int() parse, or the
ZeroDivisionError when the height recompute divides by a zero ratio. -/
def resolve_dimensions (rule : VariantRule) (imgW imgH : ℤ)
    (ratio_value : ℚ) : Option (ℤ × ℤ) :=
  let width_auto := isAuto rule.width
  let height_auto := isAuto rule.height
  match resolveEntry rule.width imgW true none ratio_value with
  | none => none
  | some width =>
    match resolveEntry rule.height imgH false (some width) ratio_value with
    | none => none
    | some height =>
      let width2 := if width_auto && !height_auto then
          max 1 (pyRound (ratMul (height : ℚ) ratio_value))
        else width
      if height_auto && !width_auto && ratio_value = 0 then none
      else
        let height2 := if height_auto && !width_auto then
            max 1 (pyRound (ratDiv (width2 : ℚ) ratio_value))
          else height
        if width_auto && height_auto then some (imgW, imgH)
        else some (width2, height2)

/-- The for-loop of ImageSession.build_variant_specs (lines 79-82):
resolve every rule in order into a (prefix, width, height) triple. -/
def specsOf (imgW imgH : ℤ) (ratio_value : ℚ) :
    List VariantRule → Except String (List (String × ℤ × ℤ))
  | [] => .ok []
  | rule :: rest =>
    match resolve_dimensions rule imgW imgH ratio_value with
    | none => .error "ValueError"
    | some wh =>
      match specsOf imgW imgH ratio_value rest with
      | .error e => .error e
      | .ok tail => .ok ((rule.pfx, wh.1, wh.2) :: tail)

/-- ImageSession.build_variant_specs (image_session.py lines 71-84).
A missing or non-positive ratio value re-derives label and value from the
image; a falsy label (None or empty) falls back to the default label; the
suffix replaces colon with x, strips spaces and maps the question mark to
custom. -/
def build_variant_specs (vr : RuleTable) (sel : RatioSelection)
    (imgW imgH : ℤ) : Except String (List (String × ℤ × ℤ) × String) :=
  let lv : Option String × ℚ :=
    match sel.value with
    | none =>
      let d := derive_ratio_pair imgW imgH
      (some d.1, d.2)
    | some v =>
      if v ≤ 0 then
        let d := derive_ratio_pair imgW imgH
        (some d.1, d.2)
      else (sel.label, v)
  let label := match lv.1 with
    | none => "default"
    | some s => if s = "" then "default" else s
  let value := lv.2
  match variant_rules_lookup vr label with
  | .error e => .error e
  | .ok rules =>
    match specsOf imgW imgH value rules with
    | .error e => .error e
    | .ok specs =>
      .ok (specs,
        pyReplace (pyReplace (pyReplace label ':' "x") ' ' "") '?' "custom")

/-- The built-in variant_rules table of DEFAULT_SETTINGS
(settings.py lines 53-69). -/
def defaultVariantRules : RuleTable :=
  [("default",
    [⟨"__", .sym "original", .sym "original"⟩,
     ⟨"_", .lit 960, .sym "auto"⟩,
     ⟨"", .lit 480, .sym "auto"⟩]),
   ("16:9",
    [⟨"__", .lit 3840, .lit 2160⟩,
     ⟨"_", .lit 1920, .lit 1080⟩,
     ⟨"", .lit 1280, .lit 720⟩]),
   ("9:16",
    [⟨"__", .lit 2160, .lit 3840⟩,
     ⟨"_", .lit 1080, .lit 1920⟩,
     ⟨"", .lit 720, .lit 1280⟩])]

/-! ## src/core/image_processing.py : resize_with_quality -/

/-- An abstract raster image for the resize pipeline: pixel dimensions
and an opaque content tag. -/
structure RImage where
  width : ℤ
  height : ℤ
  tag : ℕ
deriving Repr, DecidableEq

/-- The PIL operations the pipeline delegates to (external collaborator):
Image.resize with the configured resample method, and the UnsharpMask
filter with the configured radius, percent and threshold. -/
structure ResizeOps where
  resize : RImage → ℤ → ℤ → RImage
  unsharp : RImage → RImage

/-- ProcessingPipeline.resize_with_quality (image_processing.py lines
35-56).  image.copy() is the identity on the value level.  The aspect of
a zero-width image falls back to 1.0 (Python truthiness of width). -/
def resize_with_quality (ops : ResizeOps) (image : RImage)
    (target_width : ℤ) (target_height : Option ℤ) : Except String RImage :=
  if target_width ≤ 0 then .error "Zielbreite muss größer als 0 sein."
  else
    let th := match target_height with
      | some t => t
      | none =>
        let aspect : ℚ := if image.width ≠ 0 then
            ratDiv (image.height : ℚ) (image.width : ℚ)
          else 1
        max 1 (pyRound (ratMul (target_width : ℚ) aspect))
    let resized := if target_width = image.width ∧ th = image.height then
        image
      else ops.resize image target_width th
    .ok (ops.unsharp resized)

/-! ## src/core/adjustments.py : apply_adjustments pipeline -/

/-- An RGB pixel with uint8 channels (the arrays PIL hands around). -/
structure Pixel where
  r : ℕ
  g : ℕ
  b : ℕ
deriving Repr, DecidableEq

/-- A decoded RGB image for the adjustment pipeline: its pixels.  The
pointwise temperature and balance steps do not depend on the 2-D layout. -/
abbrev PImage := List Pixel

/-- The four PIL ImageEnhance operations the pipeline delegates to
(external collaborator, src of truth is the PIL library): Brightness,
Contrast, Color and Sharpness, each taking the enhancement factor. -/
structure Enhancers where
  brightness : PImage → ℚ → PImage
  contrast : PImage → ℚ → PImage
  color : PImage → ℚ → PImage
  sharpness : PImage → ℚ → PImage

/-- np.clip(x, lo, hi). -/
def npClip (lo hi x : ℚ) : ℚ :=
  max lo (min hi x)

/-- arr.astype(np.uint8) on a clipped non-negative value: truncation. -/
def toU8 (x : ℚ) : ℕ :=
  (ratFloor x).toNat

/-- The function _apply_temperature (adjustments.py lines 229-236), per pixel:
red gain 1 + (shift/100)*0.4, blue gain 1 - (shift/100)*0.4, green
untouched, each scaled channel clipped to [0, 255] and cast to uint8. -/
def applyTemperaturePixel (shift : ℤ) (p : Pixel) : Pixel :=
  let factor : ℚ := ratMul (ratDiv (shift : ℚ) 100) (mkRat 2 5)
  let r_gain := ratAdd 1 factor
  let b_gain := ratSub 1 factor
  { r := toU8 (npClip 0 255 (ratMul (p.r : ℚ) r_gain)),
    g := p.g,
    b := toU8 (npClip 0 255 (ratMul (p.b : ℚ) b_gain)) }

/-- The function _apply_temperature lifted to the whole image. -/
def _apply_temperature (image : PImage) (shift : ℤ) : PImage :=
  image.map (applyTemperaturePixel shift)

/-- The function _apply_rgb_balance (adjustments.py lines 239-252), per pixel: each
channel gain 1 + (balance/100)*0.4, clipped to [0, 255], cast to uint8. -/
def applyRgbBalancePixel (red green blue : ℤ) (p : Pixel) : Pixel :=
  let gain : ℤ → ℚ := fun v => ratAdd 1 (ratMul (ratDiv (v : ℚ) 100) (mkRat 2 5))
  { r := toU8 (npClip 0 255 (ratMul (p.r : ℚ) (gain red))),
    g := toU8 (npClip 0 255 (ratMul (p.g : ℚ) (gain green))),
    b := toU8 (npClip 0 255 (ratMul (p.b : ℚ) (gain blue))) }

/-- The function _apply_rgb_balance lifted to the whole image. -/
def _apply_rgb_balance (image : PImage) (red green blue : ℤ) : PImage :=
  image.map (applyRgbBalancePixel red green blue)

/-- apply_adjustments (adjustments.py lines 57-73).  image.convert RGB on
an already-RGB model is the identity; each enhancement runs only when its
factor differs from 1.0, temperature only when non-zero, balance only when
some channel balance is non-zero. -/
def apply_adjustments (E : Enhancers) (image : PImage)
    (st : AdjustmentState) : PImage :=
  let result := image
  let result := if st.brightness ≠ 1 then E.brightness result st.brightness
    else result
  let result := if st.contrast ≠ 1 then E.contrast result st.contrast
    else result
  let result := if st.saturation ≠ 1 then E.color result st.saturation
    else result
  let result := if st.sharpness ≠ 1 then E.sharpness result st.sharpness
    else result
  let result := if st.temperature ≠ 0 then
      _apply_temperature result st.temperature
    else result
  let result := if st.red_balance ≠ 0 ∨ st.green_balance ≠ 0 ∨
      st.blue_balance ≠ 0 then
      _apply_rgb_balance result st.red_balance st.green_balance
        st.blue_balance
    else result
  result

/-- The temperature channel transform as the specification words it:
multiply by the gain and clamp the scaled value to [0, 255] (stated with
the clamp written as min 255 (max 0 x)); used to compare the code path
against the spec formula. -/
def tempChannelSpec (shift : ℤ) (c : ℕ) (isRed : Bool) : ℕ :=
  let gain : ℚ := if isRed then 1 + ((shift : ℚ) / 100) * (2/5)
    else 1 - ((shift : ℚ) / 100) * (2/5)
  toU8 (min 255 (max 0 ((c : ℚ) * gain)))

/-! ## Theorems -/

theorem clamp_factor_range (v : ℚ) :
    mkRat 1 5 ≤ _clamp_factor v ∧ _clamp_factor v ≤ 3 := by
  refine ⟨le_max_left _ _, max_le (by decide) (min_le_left _ _)⟩

theorem clamp_hundred_range (w : ℤ) :
    -100 ≤ _clamp_hundred w ∧ _clamp_hundred w ≤ 100 := by
  refine ⟨le_max_left _ _, max_le (by decide) (min_le_left _ _)⟩

/-- Claim C1 (amended): the default construction is in range, every
field-wise setter of adjustments.py clamps its input into range for every
input value, and every clamping controller mutator (reset, the
temperature and balance updates, and a successful update_factor)
preserves the range invariant.  (set_state and direct construction store
the given state unchanged; see the counterexample.) -/
theorem adjustment_mutators_clamp (st : AdjustmentState) (v : ℚ) (w : ℤ)
    (c : Controller) (field : String) (hst : StateInRange st)
    (hc : StateInRange c.state) :
    StateInRange ({} : AdjustmentState) ∧
    StateInRange (set_brightness st v) ∧
    StateInRange (set_contrast st v) ∧
    StateInRange (set_saturation st v) ∧
    StateInRange (set_sharpness st v) ∧
    StateInRange (set_temperature st w) ∧
    StateInRange (set_red_balance st w) ∧
    StateInRange (set_green_balance st w) ∧
    StateInRange (set_blue_balance st w) ∧
    StateInRange (ctrl_reset c).1.state ∧
    StateInRange (update_temperature c w).1.state ∧
    StateInRange (update_red_balance c w).1.state ∧
    StateInRange (update_green_balance c w).1.state ∧
    StateInRange (update_blue_balance c w).1.state ∧
    ((update_factor c field v).1 = none →
      StateInRange (update_factor c field v).2.1.state) := by
  have hcf := clamp_factor_range v
  have hch := clamp_hundred_range w
  obtain ⟨b1, b2, c1, c2, s1, s2, p1, p2, t1, t2, r1, r2, g1, g2, u1, u2⟩ := hst
  obtain ⟨cb1, cb2, cc1, cc2, cs1, cs2, cp1, cp2, ct1, ct2, cr1, cr2,
    cg1, cg2, cu1, cu2⟩ := hc
  refine ⟨by decide, ?_, ?_, ?_, ?_, ?_, ?_, ?_, ?_, ?_, ?_, ?_, ?_, ?_, ?_⟩
  · exact ⟨hcf.1, hcf.2, c1, c2, s1, s2, p1, p2, t1, t2, r1, r2, g1, g2, u1, u2⟩
  · exact ⟨b1, b2, hcf.1, hcf.2, s1, s2, p1, p2, t1, t2, r1, r2, g1, g2, u1, u2⟩
  · exact ⟨b1, b2, c1, c2, hcf.1, hcf.2, p1, p2, t1, t2, r1, r2, g1, g2, u1, u2⟩
  · exact ⟨b1, b2, c1, c2, s1, s2, hcf.1, hcf.2, t1, t2, r1, r2, g1, g2, u1, u2⟩
  · exact ⟨b1, b2, c1, c2, s1, s2, p1, p2, hch.1, hch.2, r1, r2, g1, g2, u1, u2⟩
  · exact ⟨b1, b2, c1, c2, s1, s2, p1, p2, t1, t2, hch.1, hch.2, g1, g2, u1, u2⟩
  · exact ⟨b1, b2, c1, c2, s1, s2, p1, p2, t1, t2, r1, r2, hch.1, hch.2, u1, u2⟩
  · exact ⟨b1, b2, c1, c2, s1, s2, p1, p2, t1, t2, r1, r2, g1, g2, hch.1, hch.2⟩
  · exact (by decide : StateInRange ({} : AdjustmentState))
  · exact ⟨cb1, cb2, cc1, cc2, cs1, cs2, cp1, cp2, hch.1, hch.2, cr1, cr2,
      cg1, cg2, cu1, cu2⟩
  · exact ⟨cb1, cb2, cc1, cc2, cs1, cs2, cp1, cp2, ct1, ct2, hch.1, hch.2,
      cg1, cg2, cu1, cu2⟩
  · exact ⟨cb1, cb2, cc1, cc2, cs1, cs2, cp1, cp2, ct1, ct2, cr1, cr2,
      hch.1, hch.2, cu1, cu2⟩
  · exact ⟨cb1, cb2, cc1, cc2, cs1, cs2, cp1, cp2, ct1, ct2, cr1, cr2,
      cg1, cg2, hch.1, hch.2⟩
  · intro hok
    by_cases h1 : field = "brightness"
    · simp only [update_factor, if_pos h1]
      exact ⟨hcf.1, hcf.2, cc1, cc2, cs1, cs2, cp1, cp2, ct1, ct2, cr1, cr2,
        cg1, cg2, cu1, cu2⟩
    · by_cases h2 : field = "contrast"
      · simp only [update_factor, if_neg h1, if_pos h2]
        exact ⟨cb1, cb2, hcf.1, hcf.2, cs1, cs2, cp1, cp2, ct1, ct2, cr1, cr2,
          cg1, cg2, cu1, cu2⟩
      · by_cases h3 : field = "saturation"
        · simp only [update_factor, if_neg h1, if_neg h2, if_pos h3]
          exact ⟨cb1, cb2, cc1, cc2, hcf.1, hcf.2, cp1, cp2, ct1, ct2,
            cr1, cr2, cg1, cg2, cu1, cu2⟩
        · by_cases h4 : field = "sharpness"
          · simp only [update_factor, if_neg h1, if_neg h2, if_neg h3,
              if_pos h4]
            exact ⟨cb1, cb2, cc1, cc2, cs1, cs2, hcf.1, hcf.2, ct1, ct2,
              cr1, cr2, cg1, cg2, cu1, cu2⟩
          · simp only [update_factor, if_neg h1, if_neg h2, if_neg h3,
              if_neg h4] at hok
            exact absurd hok (by simp)

/-- Witness for the amended C1 theorem at a concrete out-of-range input:
brightness 5 clamps to 3 and temperature -500 clamps to -100. -/
theorem adjustment_mutators_clamp_witness :
    StateInRange (set_brightness ({} : AdjustmentState) 5) ∧
    StateInRange (set_temperature ({} : AdjustmentState) (-500)) :=
  ⟨(adjustment_mutators_clamp {} 5 (-500) {} "brightness" (by decide)
      (by decide)).2.1,
   (adjustment_mutators_clamp {} 5 (-500) {} "brightness" (by decide)
      (by decide)).2.2.2.2.2.1⟩

/-- Claim C1 counterexample: AdjustmentController.set_state stores the
given state without clamping, so a brightness of 5.0 survives set_state,
above the documented maximum of 3.0. -/
theorem set_state_no_clamp_counterexample :
    (ctrl_set_state ({} : Controller)
        { brightness := 5 }).1.state.brightness = 5 ∧
    ¬ (ctrl_set_state ({} : Controller)
        { brightness := 5 }).1.state.brightness ≤ 3 := by
  decide

/-- Claim C8: update_factor fails exactly on the four unknown field
names; on failure the controller state is unchanged and the listener is
not invoked; on success the listener is invoked exactly once, with the
new state. -/
theorem update_factor_dispatch (c : Controller) (field : String) (v : ℚ)
    (hl : c.hasListener = true) :
    ((update_factor c field v).1 ≠ none ↔
      ¬ (field = "brightness" ∨ field = "contrast" ∨
         field = "saturation" ∨ field = "sharpness")) ∧
    ((update_factor c field v).1 ≠ none →
      (update_factor c field v).2.1 = c ∧
      (update_factor c field v).2.2 = []) ∧
    ((update_factor c field v).1 = none →
      (update_factor c field v).2.2 =
        [(update_factor c field v).2.1.state]) := by
  by_cases h1 : field = "brightness"
  · simp [update_factor, h1, emitOf, hl]
  · by_cases h2 : field = "contrast"
    · simp [update_factor, h1, h2, emitOf, hl]
    · by_cases h3 : field = "saturation"
      · simp [update_factor, h1, h2, h3, emitOf, hl]
      · by_cases h4 : field = "sharpness"
        · simp [update_factor, h1, h2, h3, h4, emitOf, hl]
        · simp [update_factor, h1, h2, h3, h4, emitOf, hl]

/-- Witness for the C8 theorem: an unknown field leaves the default
controller unchanged and emits nothing. -/
theorem update_factor_dispatch_witness :
    (update_factor ({} : Controller) "telepathy" 5).2.1 =
      ({} : Controller) ∧
    (update_factor ({} : Controller) "telepathy" 5).2.2 = [] :=
  (update_factor_dispatch {} "telepathy" 5 rfl).2.1 (by decide)

/-- Claim C2 (amended): on any store whose undo stack is non-empty and
whose current snapshot is set, undo followed by redo restores the entire
store (in particular the current snapshot, bit-identically); and pushing
a snapshot always clears the redo stack entirely. -/
theorem undo_redo_round_trip {α : Type} (s : ImageStore α) (top : α)
    (rest : List α) (cur : α) (t : ImageStore α) (snap : α)
    (h1 : s.undo_stack = top :: rest) (h2 : s.current = some cur) :
    (store_redo (store_undo s).1).1 = s ∧
    (push_state t snap).redo_stack = [] := by
  constructor
  · cases s with
    | mk o cu us rs =>
      simp only at h1 h2
      subst h1
      subst h2
      simp [store_undo, store_redo]
  · simp [push_state]

/-- Witness for the C2 theorem on a concrete store. -/
theorem undo_redo_round_trip_witness :
    (store_redo (store_undo
        (⟨some 0, some 2, [1], []⟩ : ImageStore ℕ)).1).1 =
      (⟨some 0, some 2, [1], []⟩ : ImageStore ℕ) ∧
    (push_state (⟨some 0, some 2, [1], []⟩ : ImageStore ℕ) 7).redo_stack
      = [] :=
  undo_redo_round_trip (⟨some 0, some 2, [1], []⟩ : ImageStore ℕ) 1 [] 2
    (⟨some 0, some 2, [1], []⟩ : ImageStore ℕ) 7 rfl rfl

/-- Claim C2 counterexample: on the reachable store with an empty undo
stack, current snapshot 0 and redo stack [1] (fresh store, push 0,
push 1, undo), the undo call is a no-op but the following redo still
fires, so undo-then-redo moves current from 0 to 1 instead of restoring
it. -/
theorem undo_redo_counterexample :
    (store_redo (store_undo
        (⟨none, some 0, [], [1]⟩ : ImageStore ℕ)).1).1.current = some 1 ∧
    (⟨none, some 0, [], [1]⟩ : ImageStore ℕ).current = some 0 ∧
    (some 1 ≠ some 0) := by
  decide

/-- Claim C10: push_state on a fresh store (no current snapshot, empty
undo stack) leaves the undo stack empty, so has_unsaved_changes is still
false; the snapshot becomes current and the redo stack is cleared. -/
theorem push_state_fresh {α : Type} (s : ImageStore α) (snap : α)
    (h1 : s.current = none) (h2 : s.undo_stack = []) :
    (push_state s snap).undo_stack = [] ∧
    has_unsaved_changes (push_state s snap) = false ∧
    (push_state s snap).current = some snap ∧
    (push_state s snap).redo_stack = [] := by
  simp [push_state, has_unsaved_changes, h1, h2]

/-- Witness for the C10 theorem on the empty store. -/
theorem push_state_fresh_witness :
    (push_state ({} : ImageStore ℕ) 5).undo_stack = [] ∧
    has_unsaved_changes (push_state ({} : ImageStore ℕ) 5) = false ∧
    (push_state ({} : ImageStore ℕ) 5).current = some 5 ∧
    (push_state ({} : ImageStore ℕ) 5).redo_stack = [] :=
  push_state_fresh ({} : ImageStore ℕ) 5 rfl rfl

/-- Claim C6 (amended): when the target equals the current size (and the
target width is positive), only the resample is skipped: the result is
the unsharp-mask filter applied to the unresized copy, independently of
the resize operation.  The sharpen pass itself runs unconditionally. -/
theorem resize_equal_size_skips_resample_only (ops : ResizeOps)
    (f : RImage → ℤ → ℤ → RImage) (image : RImage) (tw th : ℤ)
    (hw : 0 < tw) (h1 : tw = image.width) (h2 : th = image.height) :
    resize_with_quality ops image tw (some th) =
      Except.ok (ops.unsharp image) ∧
    resize_with_quality { ops with resize := f } image tw (some th) =
      resize_with_quality ops image tw (some th) := by
  subst h1
  subst h2
  have hnot : ¬ image.width ≤ 0 := not_le.mpr hw
  constructor
  · simp [resize_with_quality, hnot]
  · simp [resize_with_quality, hnot]

/-- A concrete ResizeOps instance whose unsharp filter visibly changes
the image content tag (the real UnsharpMask changes pixels). -/
def tagOps : ResizeOps :=
  { resize := fun i _ _ => i,
    unsharp := fun i => { i with tag := i.tag + 1 } }

/-- Witness for the C6 theorem at a concrete equal-size call. -/
theorem resize_equal_size_witness :
    resize_with_quality tagOps ⟨10, 10, 0⟩ 10 (some 10) =
      Except.ok (tagOps.unsharp ⟨10, 10, 0⟩) :=
  (resize_equal_size_skips_resample_only tagOps (fun i _ _ => i)
    ⟨10, 10, 0⟩ 10 10 (by decide) rfl rfl).1

/-- Claim C3 (amended): every successful compute_crop_box returns
left, top ≥ 0 and width, height ≥ 1; the origin is fixed before the
shrink-only clamp, so whenever the origin lies strictly inside the
source (left < sourceWidth, top < sourceHeight) the clamp also gives
left + width ≤ sourceWidth and top + height ≤ sourceHeight. -/
theorem compute_crop_box_bounds (sel img : Rect) (pw ph : ℤ) (pn : Bool)
    (scale : ℚ) (l t w h : ℤ)
    (hok : compute_crop_box sel img pw ph pn scale =
      Except.ok (l, t, w, h)) :
    0 ≤ l ∧ 0 ≤ t ∧ 1 ≤ w ∧ 1 ≤ h ∧
    (l < pw → l + w ≤ pw) ∧ (t < ph → t + h ≤ ph) := by
  simp only [compute_crop_box] at hok
  split_ifs at hok <;> simp only [Except.ok.injEq, Prod.mk.injEq,
    reduceCtorEq] at hok <;>
    · obtain ⟨hl, ht, hw, hh⟩ := hok
      refine ⟨?_, ?_, ?_, ?_, ?_, ?_⟩ <;> omega

/-- Witness for the C3 theorem on an in-bounds selection at scale 1. -/
theorem compute_crop_box_bounds_witness :
    (0 ≤ (10 : ℤ)) ∧ (0 ≤ (10 : ℤ)) ∧ (1 ≤ (20 : ℤ)) ∧ (1 ≤ (20 : ℤ)) ∧
    ((10 : ℤ) < 100 → (10 : ℤ) + 20 ≤ 100) ∧
    ((10 : ℤ) < 100 → (10 : ℤ) + 20 ≤ 100) :=
  compute_crop_box_bounds ⟨10, 10, 20, 20⟩ ⟨0, 0, 100, 100⟩ 100 100
    false 1 10 10 20 20 (by decide)

/-- Claim C3 counterexample: a selection whose rounded origin lies past
the right edge of the 10 x 10 source (left = 50) succeeds, and the
shrink-only clamp floors width at 1, so left + width = 51 > 10: the
returned box is not contained in the source. -/
theorem compute_crop_box_exceed_counterexample :
    compute_crop_box ⟨50, 0, 50, 100⟩ ⟨0, 0, 100, 100⟩ 10 10 false 1 =
      Except.ok (50, 0, 1, 10) ∧ ¬ ((50 : ℤ) + 1 ≤ 10) := by
  decide

theorem ratFloor_eq_floor (q : ℚ) : ratFloor q = ⌊q⌋ := by
  rw [ratFloor, Int.fdiv_eq_ediv _ (Int.ofNat_nonneg q.den),
    ← Rat.floor_intCast_div_natCast q.num q.den, Rat.num_div_den]

theorem toU8_le_255 (x : ℚ) (h : x ≤ 255) : toU8 x ≤ 255 := by
  rw [toU8, ratFloor_eq_floor]
  have hf : ⌊x⌋ ≤ 255 := by
    have := (Int.floor_le x).trans h
    exact_mod_cast this
  omega

theorem npClip_eq_clamp (x : ℚ) : npClip 0 255 x = min 255 (max 0 x) := by
  rw [npClip, max_min_distrib_left]
  norm_num

/-- Claim C4: the four PIL enhancement steps run only when their factor
differs from 1.0 (replacing an enhancement operation changes nothing when
its factor is 1.0); the temperature step leaves green untouched, scales
red by 1 + (shift/100)*0.4 and blue by 1 - (shift/100)*0.4 exactly as
the specification words it (tempChannelSpec), and its output channels are
clamped within [0, 255].  The pipeline is a pure function of its input:
the fixed step order brightness, contrast, saturation, sharpness,
temperature, balance is the structure of apply_adjustments itself. -/
theorem apply_adjustments_pipeline (E : Enhancers)
    (f : PImage → ℚ → PImage) (image : PImage) (st : AdjustmentState)
    (shift : ℤ) (p : Pixel) :
    (st.brightness = 1 →
      apply_adjustments { E with brightness := f } image st =
        apply_adjustments E image st) ∧
    (st.contrast = 1 →
      apply_adjustments { E with contrast := f } image st =
        apply_adjustments E image st) ∧
    (st.saturation = 1 →
      apply_adjustments { E with color := f } image st =
        apply_adjustments E image st) ∧
    (st.sharpness = 1 →
      apply_adjustments { E with sharpness := f } image st =
        apply_adjustments E image st) ∧
    (applyTemperaturePixel shift p).g = p.g ∧
    (applyTemperaturePixel shift p).r = tempChannelSpec shift p.r true ∧
    (applyTemperaturePixel shift p).b = tempChannelSpec shift p.b false ∧
    (applyTemperaturePixel shift p).r ≤ 255 ∧
    (applyTemperaturePixel shift p).b ≤ 255 := by
  have hr : ratMul (ratDiv (shift : ℚ) 100) (mkRat 2 5) =
      ((shift : ℚ) / 100) * (2 / 5) := by
    rw [ratMul_eq, ratDiv_eq, Rat.mkRat_eq_div]
    norm_num
  refine ⟨?_, ?_, ?_, ?_, rfl, ?_, ?_, ?_, ?_⟩
  · intro h1
    simp [apply_adjustments, h1]
  · intro h1
    simp [apply_adjustments, h1]
  · intro h1
    simp [apply_adjustments, h1]
  · intro h1
    simp [apply_adjustments, h1]
  · simp only [applyTemperaturePixel, tempChannelSpec, if_true]
    rw [npClip_eq_clamp, ratMul_eq, ratAdd_eq, hr]
  · simp only [applyTemperaturePixel, tempChannelSpec, Bool.false_eq_true,
      if_false]
    rw [npClip_eq_clamp, ratMul_eq, ratSub_eq, hr]
  · simp only [applyTemperaturePixel]
    exact toU8_le_255 _ (by rw [npClip_eq_clamp]; exact min_le_left _ _)
  · simp only [applyTemperaturePixel]
    exact toU8_le_255 _ (by rw [npClip_eq_clamp]; exact min_le_left _ _)

/-- The identity enhancement operations, for concrete instantiation. -/
def idEnhancers : Enhancers :=
  { brightness := fun i _ => i, contrast := fun i _ => i,
    color := fun i _ => i, sharpness := fun i _ => i }

/-- Witness for the C4 theorem: with the default state the brightness
enhancement is never invoked, so replacing it changes nothing. -/
theorem apply_adjustments_pipeline_witness :
    apply_adjustments { idEnhancers with brightness := fun _ _ => [] }
      [⟨1, 2, 3⟩] {} = apply_adjustments idEnhancers [⟨1, 2, 3⟩] {} :=
  (apply_adjustments_pipeline idEnhancers (fun _ _ => []) [⟨1, 2, 3⟩] {} 0
    ⟨1, 2, 3⟩).1 rfl

/-! Session-layer theorems: variant dimensions, ratio derivation. -/

/-- A rule entry within the documented configuration schema, with the
literal integer at least 1. -/
def GoodRV : RV → Prop
  | .lit n => 1 ≤ n
  | .sym s => pyLower s = "original" ∨ pyLower s = "auto"

instance : (v : RV) → Decidable (GoodRV v)
  | .lit n => inferInstanceAs (Decidable (1 ≤ n))
  | .sym _ => inferInstanceAs (Decidable (_ ∨ _))

/-- Both fields of the rule are within the schema. -/
def GoodRule (r : VariantRule) : Prop :=
  GoodRV r.width ∧ GoodRV r.height

instance (r : VariantRule) : Decidable (GoodRule r) :=
  inferInstanceAs (Decidable (_ ∧ _))

theorem resolveEntry_pos (v : RV) (orig : ℤ) (iw : Bool)
    (other : Option ℤ) (rv : ℚ) (n : ℤ) (hg : GoodRV v) (ho : 1 ≤ orig)
    (hr : resolveEntry v orig iw other rv = some n) : 1 ≤ n := by
  cases v with
  | lit m =>
    have hm : 1 ≤ m := hg
    simp only [resolveEntry, Option.some.injEq] at hr
    omega
  | sym s =>
    rcases hg with hs | hs
    · simp only [resolveEntry, hs, if_true, Option.some.injEq] at hr
      omega
    · rcases other with _ | o <;> simp [resolveEntry, hs] at hr
      · omega
      · split_ifs at hr <;> simp only [Option.some.injEq] at hr <;> omega

theorem resolve_dimensions_pos (rule : VariantRule) (W H : ℤ) (rv : ℚ)
    (w h : ℤ) (hg : GoodRule rule) (hW : 1 ≤ W) (hH : 1 ≤ H)
    (hr : resolve_dimensions rule W H rv = some (w, h)) :
    1 ≤ w ∧ 1 ≤ h := by
  simp only [resolve_dimensions] at hr
  split at hr
  · simp at hr
  · rename_i width hrw
    split at hr
    · simp at hr
    · rename_i height hrh
      have hw1 : 1 ≤ width := resolveEntry_pos _ _ _ _ _ _ hg.1 hW hrw
      have hh1 : 1 ≤ height := resolveEntry_pos _ _ _ _ _ _ hg.2 hH hrh
      split_ifs at hr <;>
        simp only [Option.some.injEq, Prod.mk.injEq, reduceCtorEq] at hr <;>
        omega

theorem getRules_mem (vr : RuleTable) (label : String)
    (l : List VariantRule) (h : getRules vr label = some l) :
    ∃ lbl, (lbl, l) ∈ vr := by
  unfold getRules at h
  rcases hf : vr.find? (fun p => p.1 = label) with _ | pr <;> rw [hf] at h
  · simp at h
  · simp only [Option.map_some', Option.some.injEq] at h
    refine ⟨pr.1, ?_⟩
    have hm := List.mem_of_find?_eq_some hf
    rwa [show (pr.1, l) = pr by rw [← h]]

theorem variant_rules_lookup_mem (vr : RuleTable) (label : String)
    (rules : List VariantRule)
    (h : variant_rules_lookup vr label = Except.ok rules) :
    ∃ lbl, (lbl, rules) ∈ vr := by
  rcases hg1 : getRules vr label with _ | l1
  · rcases hg2 : getRules vr "default" with _ | l2
    · simp [variant_rules_lookup, hg1, hg2] at h
    · by_cases hl2 : l2 = []
      · subst hl2
        simp [variant_rules_lookup, hg1, hg2] at h
      · simp [variant_rules_lookup, hg1, hg2, hl2] at h
        subst h
        exact getRules_mem _ _ _ hg2
  · by_cases hl1 : l1 = []
    · subst hl1
      rcases hg2 : getRules vr "default" with _ | l2
      · simp [variant_rules_lookup, hg1, hg2] at h
      · by_cases hl2 : l2 = []
        · subst hl2
          simp [variant_rules_lookup, hg1, hg2] at h
        · simp [variant_rules_lookup, hg1, hg2, hl2] at h
          subst h
          exact getRules_mem _ _ _ hg2
    · simp [variant_rules_lookup, hg1, hl1] at h
      subst h
      exact getRules_mem _ _ _ hg1

theorem specsOf_pos (W H : ℤ) (rv : ℚ) (rules : List VariantRule)
    (specs : List (String × ℤ × ℤ)) (hg : ∀ r ∈ rules, GoodRule r)
    (hW : 1 ≤ W) (hH : 1 ≤ H)
    (hok : specsOf W H rv rules = Except.ok specs) :
    ∀ s ∈ specs, 1 ≤ s.2.1 ∧ 1 ≤ s.2.2 := by
  induction rules generalizing specs with
  | nil =>
    simp only [specsOf, Except.ok.injEq] at hok
    subst hok
    simp
  | cons r rs ih =>
    simp only [specsOf] at hok
    split at hok
    · simp at hok
    · rename_i wh hrd
      split at hok
      · simp at hok
      · rename_i tail htl
        simp only [Except.ok.injEq] at hok
        subst hok
        intro s hs
        rcases List.mem_cons.mp hs with hhead | htail
        · subst hhead
          exact resolve_dimensions_pos r W H rv wh.1 wh.2
            (hg r (List.mem_cons_self r rs)) hW hH (by rw [hrd])
        · exact ih tail (fun x hx => hg x (List.mem_cons_of_mem r hx))
            htl s htail

/-- Claim C5 (amended): whenever every rule in the configured table is
within the documented schema with literal integers at least 1, and the
source image dimensions are at least 1, every (width, height) pair
resolved by build_variant_specs is at least 1 on both axes.  (A literal
integer is used as-is, so a configured literal 0 passes through
unclamped; see the counterexample.) -/
theorem build_variant_specs_dims_pos (vr : RuleTable)
    (sel : RatioSelection) (W H : ℤ) (specs : List (String × ℤ × ℤ))
    (sfx : String) (hW : 1 ≤ W) (hH : 1 ≤ H)
    (hg : ∀ e ∈ vr, ∀ r ∈ e.2, GoodRule r)
    (hok : build_variant_specs vr sel W H = Except.ok (specs, sfx)) :
    ∀ s ∈ specs, 1 ≤ s.2.1 ∧ 1 ≤ s.2.2 := by
  simp only [build_variant_specs] at hok
  split at hok
  · simp at hok
  · rename_i rules hlk
    split at hok
    · simp at hok
    · rename_i specs0 hsp
      simp only [Except.ok.injEq, Prod.mk.injEq] at hok
      obtain ⟨hspecs, _⟩ := hok
      subst hspecs
      obtain ⟨lbl, hmem⟩ := variant_rules_lookup_mem _ _ _ hlk
      exact specsOf_pos _ _ _ _ _ (hg (lbl, rules) hmem) hW hH hsp

/-- Witness for the C5 theorem: the shipped default rule table on a
1024 x 768 image. -/
theorem build_variant_specs_dims_pos_witness :
    (1 : ℤ) ≤ 960 ∧ (1 : ℤ) ≤ 720 :=
  build_variant_specs_dims_pos defaultVariantRules {} 1024 768
    [("__", 1024, 768), ("_", 960, 720), ("", 480, 360)] "4x3"
    (by decide) (by decide) (by decide) (by decide)
    ("_", 960, 720) (by decide)

/-- Claim C5 counterexample: a configured rule with the literal integer
width 0 resolves to width 0, below 1, even on a healthy 100 x 100
image. -/
theorem literal_zero_dimension_counterexample :
    build_variant_specs [("default", [⟨"", RV.lit 0, RV.lit 5⟩])] {}
        100 100 = Except.ok ([("", 0, 5)], "1x1") ∧ ¬ (1 ≤ (0 : ℤ)) := by
  decide

/-- Claim C7: with no ratio selected, a 1024 x 768 image derives the
label 4:3 (best rational approximation with denominator at most 100) and
build_variant_specs returns the ratio suffix 4x3. -/
theorem derive_4_3 (vr : RuleTable) :
    derive_ratio_pair 1024 768 = ("4:3", mkRat 4 3) ∧
    (∀ specs sfx,
      build_variant_specs vr {} 1024 768 = Except.ok (specs, sfx) →
        sfx = "4x3") := by
  constructor
  · decide
  · intro specs sfx hok
    have hd : derive_ratio_pair 1024 768 = ("4:3", mkRat 4 3) := by decide
    have hsfx : pyReplace (pyReplace (pyReplace "4:3" ':' "x") ' ' "")
        '?' "custom" = "4x3" := by decide
    have hne : ¬ ("4:3" : String) = "" := by decide
    simp only [build_variant_specs, hd, if_neg hne] at hok
    split at hok
    · simp at hok
    · rename_i rules hlk
      split at hok
      · simp at hok
      · rename_i specs0 hsp
        rw [hsfx] at hok
        simp only [Except.ok.injEq, Prod.mk.injEq] at hok
        exact hok.2.symm

/-- Witness for the C7 theorem on the shipped default rule table. -/
theorem derive_4_3_witness :
    build_variant_specs defaultVariantRules {} 1024 768 =
      Except.ok ([("__", 1024, 768), ("_", 960, 720), ("", 480, 360)],
        "4x3") ∧ ("4x3" : String) = "4x3" :=
  ⟨by decide,
   (derive_4_3 defaultVariantRules).2
     [("__", 1024, 768), ("_", 960, 720), ("", 480, 360)] "4x3"
     (by decide)⟩

/-- Claim C9: when the stored ratio value is missing or non-positive,
build_variant_specs ignores the stored label (and custom tuple) entirely
and behaves exactly as a session with no ratio selection: both the rule
lookup and the filename suffix use the freshly derived label. -/
theorem stored_label_ignored (vr : RuleTable) (l : String)
    (c : Option (ℚ × ℚ)) (W H : ℤ) :
    build_variant_specs vr ⟨some l, none, c⟩ W H =
      build_variant_specs vr ⟨none, none, none⟩ W H ∧
    (∀ v : ℚ, v ≤ 0 →
      build_variant_specs vr ⟨some l, some v, c⟩ W H =
        build_variant_specs vr ⟨none, none, none⟩ W H) := by
  constructor
  · rfl
  · intro v hv
    simp only [build_variant_specs]
    rw [if_pos hv]

/-- Witness for the C9 theorem: a stored 16:9 label with ratio value -1
behaves as if no ratio were selected. -/
theorem stored_label_ignored_witness :
    build_variant_specs defaultVariantRules
        ⟨some "16:9", some (-1), none⟩ 1024 768 =
      build_variant_specs defaultVariantRules ⟨none, none, none⟩
        1024 768 :=
  (stored_label_ignored defaultVariantRules "16:9" none 1024 768).2 (-1)
    (by norm_num)

/-- Claim C6 counterexample: with an unsharp filter that changes the
image, an equal-size resize_with_quality call does not return a no-op
copy of the input, because the sharpen pass also runs in the equal-size
case. -/
theorem resize_noop_counterexample :
    resize_with_quality tagOps ⟨10, 10, 0⟩ 10 (some 10) ≠
      Except.ok ⟨10, 10, 0⟩ := by
  decide

end ImageProcessor
